import Mathlib

/-!
# Current-loop calibrator: loop monitor, calibration capture, simulator output controller

A shallow embedding of
* `source/src/adc.c` (loop monitor `ADC_UpdateLoopMonitor`, sample acquisition,
  calibration-point capture),
* `source/inc/dac.h` (limits and the `DacModes` enumeration),
* `trunk/project/MenuSimulator/gui_wrapper.c` (the simulator's `dac_state` and its
  setters and getters).

Machine integers are `Nat` / `Int` with explicit wrap-around: `uint8_t` is taken
modulo `2^8`, `uint32_t` modulo `2^32`, and `int32_t` arithmetic wraps in two's
complement (`toI32`).
-/

namespace Calibrator

/-! ## Machine integers -/

/-- Conversion to `uint8_t`. -/
def toU8 (x : Int) : Nat := (x % 256).toNat

/-- Conversion to `uint32_t`. -/
def toU32 (x : Int) : Nat := (x % 4294967296).toNat

/-- Conversion to `int32_t` (two's complement wrap-around). -/
def toI32 (x : Int) : Int := (x + 2147483648) % 4294967296 - 2147483648

/-- Conversion to `int16_t` (two's complement wrap-around). -/
def toI16 (x : Int) : Int := (x + 32768) % 65536 - 32768

/-- The C library function `abs` on `int`, result wrapped to `int32_t`. -/
def c_abs (x : Int) : Int := toI32 (x.natAbs : Int)

/-! ## Constants -/

/-- The macro `CURRENT_ADC_OVERSAMPLE` of adc.c. -/
def CURRENT_ADC_OVERSAMPLE : Nat := 4

/-- The macro `VOLTAGE_ADC_OVERSAMPLE` of adc.c. -/
def VOLTAGE_ADC_OVERSAMPLE : Nat := 4

/-- The macro `BLINK_PERIOD` of adc.c, in units of the monitor call period. -/
def BLINK_PERIOD : Nat := 25

/-- The macro `DAC_PROFILE_COUNT` of dac.h. -/
def DAC_PROFILE_COUNT : Nat := 2

/-- The macro `DAC_MAX_SETTING` of dac.h, in uA. -/
def DAC_MAX_SETTING : Nat := 24000

/-- The macro `DAC_MIN_SETTING` of dac.h, in uA. -/
def DAC_MIN_SETTING : Nat := 100

/-- The enumerator `DAC_MODE_CONST` of `enum DacModes` in dac.h. -/
def DAC_MODE_CONST : Nat := 0

/-- The enumerator `DAC_MODE_WAVEFORM` of `enum DacModes` in dac.h. -/
def DAC_MODE_WAVEFORM : Nat := 1

/-- The constants adc.c takes from adc.h and the device-mode header, neither of which
is among the sources: the status masks, the two thresholds (non-negative `int`
literals, in uA) and the code of the normal device mode. They are parameters of the
embedding. -/
structure AdcHeader where
  LOOP_OK : Nat
  LOOP_BREAK : Nat
  LOOP_ERROR : Nat
  LOOP_BREAK_TRESHOLD : Nat
  LOOP_ERROR_TRESHOLD : Nat
  MODE_NORMAL : Nat
deriving DecidableEq

/-- What the embedding assumes of the header constants: the status masks fit the
`uint8_t` status, `LOOP_BREAK` and `LOOP_ERROR` are non-empty disjoint masks that
`LOOP_OK` does not touch, and the thresholds are non-negative `int` values. -/
def AdcHeader.WellFormed (k : AdcHeader) : Prop :=
  k.LOOP_OK < 256 ∧ k.LOOP_BREAK < 256 ∧ k.LOOP_ERROR < 256 ∧
  k.LOOP_BREAK ≠ 0 ∧ k.LOOP_ERROR ≠ 0 ∧
  k.LOOP_OK &&& k.LOOP_BREAK = 0 ∧ k.LOOP_OK &&& k.LOOP_ERROR = 0 ∧
  k.LOOP_BREAK &&& k.LOOP_ERROR = 0 ∧
  k.LOOP_BREAK_TRESHOLD < 2147483648 ∧ k.LOOP_ERROR_TRESHOLD < 2147483648

instance (k : AdcHeader) : Decidable k.WellFormed := by
  unfold AdcHeader.WellFormed
  infer_instance

/-- Modelled from the spec: adc.h is not among the sources. `LOOP_ERROR_TRESHOLD = 500`
is the threshold of the worked examples of the specification, which gives no values
for the other constants; sample values are taken for them (status masks `0`, `1`,
`2`, break threshold `100`, normal mode `0`). Used for evaluation only. -/
def exampleHeader : AdcHeader :=
  { LOOP_OK := 0, LOOP_BREAK := 1, LOOP_ERROR := 2,
    LOOP_BREAK_TRESHOLD := 100, LOOP_ERROR_TRESHOLD := 500, MODE_NORMAL := 0 }

/-! ## State -/

/-- Modelled from the spec: `calibration_point_t` is declared in linear_calibration.h,
which is not among the sources; a calibration point is a pair of integers
`{ code, value }`. -/
structure calibration_point_t where
  value : Int
  code : Int
deriving DecidableEq

/-- Modelled from the spec: `calibration_t` is declared in linear_calibration.h, which
is not among the sources; a calibration state is `{ point1, point2, scale, gain,
offset }`, the last two being the derived coefficients. -/
structure calibration_t where
  point1 : calibration_point_t
  point2 : calibration_point_t
  scale : Int
  gain : Int
  offset : Int
deriving DecidableEq

/-- The file-scope variables of adc.c, together with the two indicator signals that
`ADC_UpdateLoopMonitor` hands to `LED_Set`. -/
structure AdcState where
  adc_voltage_calibration : calibration_t
  adc_current_calibration : calibration_t
  adc_current_code : Nat
  adc_voltage_code : Nat
  loop_voltage : Nat
  loop_current : Nat
  loop_status : Nat
  blink_counter : Nat
  led_error : Nat
  led_break : Nat
deriving DecidableEq

/-- What the DAC getters return while the monitor runs: `DAC_GetOutputState()`,
`DAC_GetMode()`, `DAC_GetSettingConst()`, `DAC_GetSettingWaveMin()` and
`DAC_GetSettingWaveMax()`. The monitor does not change the DAC. -/
structure DacView where
  outputState : Nat
  mode : Nat
  settingConst : Nat
  waveMin : Nat
  waveMax : Nat
deriving DecidableEq

/-! ## The loop monitor -/

/-- The break check of `ADC_UpdateLoopMonitor` (adc.c, lines 110-121). -/
def checkLoopBreak (k : AdcHeader) (dac : DacView) (s : AdcState) : AdcState :=
  if dac.outputState ≠ 0 then
    let s1 :=
      if s.loop_current ≤ k.LOOP_BREAK_TRESHOLD then
        { s with loop_status := (s.loop_status ||| k.LOOP_BREAK) % 256 }
      else s
    { s1 with blink_counter := 0 }
  else
    let s1 :=
      { s with blink_counter :=
          (if s.blink_counter < BLINK_PERIOD - 1 then s.blink_counter + 1 else 0) % 256 }
    if s1.blink_counter < BLINK_PERIOD / 2 then
      { s1 with loop_status := (s1.loop_status ||| k.LOOP_BREAK) % 256 }
    else s1

/-- The error check of `ADC_UpdateLoopMonitor` (adc.c, lines 122-137). -/
def checkLoopError (k : AdcHeader) (dac : DacView) (s : AdcState) : AdcState :=
  if dac.outputState ≠ 0 then
    if dac.mode = DAC_MODE_CONST then
      if c_abs (toI32 (toI32 s.loop_current - toI32 dac.settingConst))
          > (k.LOOP_ERROR_TRESHOLD : Int) then
        { s with loop_status := (s.loop_status ||| k.LOOP_ERROR) % 256 }
      else s
    else
      if toI32 s.loop_current < toI32 (toI32 dac.waveMin - k.LOOP_ERROR_TRESHOLD) ∨
          toI32 s.loop_current > toI32 (toI32 dac.waveMax + k.LOOP_ERROR_TRESHOLD) then
        { s with loop_status := (s.loop_status ||| k.LOOP_ERROR) % 256 }
      else s
  else
    if s.loop_current > k.LOOP_ERROR_TRESHOLD then
      { s with loop_status := (s.loop_status ||| k.LOOP_ERROR) % 256 }
    else s

/-- The function `ADC_UpdateLoopMonitor` of adc.c: `device_mode` is the global of that
name, `dac` what the DAC getters return. -/
def ADC_UpdateLoopMonitor (k : AdcHeader) (device_mode : Nat) (dac : DacView)
    (s : AdcState) : AdcState :=
  let s0 := { s with loop_status := k.LOOP_OK % 256 }
  let s1 :=
    if device_mode = k.MODE_NORMAL then checkLoopError k dac (checkLoopBreak k dac s0)
    else s0
  { s1 with led_error := s1.loop_status &&& k.LOOP_ERROR,
            led_break := s1.loop_status &&& k.LOOP_BREAK }

/-- The function `ADC_GetLoopStatus` of adc.c. -/
def ADC_GetLoopStatus (s : AdcState) : Nat := s.loop_status

/-- The function `ADC_GetLoopCurrent` of adc.c. -/
def ADC_GetLoopCurrent (s : AdcState) : Nat := s.loop_current

/-- A status bit is set when the masked status is non-zero: the test
`loop_status & MASK` that `ADC_UpdateLoopMonitor` hands to `LED_Set`. -/
def bitSet (status mask : Nat) : Bool := status &&& mask != 0

/-- An `AdcState` used for evaluation: the calibration points and scale that
`ADC_Initialize` installs, with zero coefficients and zeroed measurements, the given
loop current and the given blink counter. -/
def exampleState (current counter : Nat) : AdcState :=
  { adc_voltage_calibration :=
      { point1 := ⟨0, 0⟩, point2 := ⟨20000, 13104⟩, scale := 10000, gain := 0, offset := 0 },
    adc_current_calibration :=
      { point1 := ⟨0, 0⟩, point2 := ⟨20000, 13104⟩, scale := 10000, gain := 0, offset := 0 },
    adc_current_code := 0, adc_voltage_code := 0, loop_voltage := 0,
    loop_current := current, loop_status := 0, blink_counter := counter,
    led_error := 0, led_break := 0 }

/-! ## Sample acquisition and calibration-point capture (adc.c) -/

/-- The oversampling loop shared by `ADC_UpdateLoopCurrent` and `ADC_UpdateLoopVoltage`:
`n` conversions, each result masked with `0xFFF` and added to a `uint32_t`
accumulator. `ADC1_GetResult i` is the converter result of the `i`-th conversion; the
wait for the end-of-conversion flag is the acquisition driver's and is not modelled. -/
def oversample (n : Nat) (ADC1_GetResult : Nat → Nat) : Nat :=
  (List.range n).foldl (fun temp32u i => (temp32u + (ADC1_GetResult i &&& 0xFFF)) % 4294967296) 0

/-- The function `ADC_UpdateLoopCurrent` of adc.c. `GetValueForCode` belongs to the
linear-calibration module, which is not among the sources, and is a parameter. -/
def ADC_UpdateLoopCurrent (GetValueForCode : calibration_t → Nat → Int)
    (ADC1_GetResult : Nat → Nat) (s : AdcState) : AdcState :=
  let temp32u := oversample CURRENT_ADC_OVERSAMPLE ADC1_GetResult
  let temp32 := toI32 (GetValueForCode s.adc_current_calibration temp32u)
  { s with adc_current_code := temp32u,
           loop_current := if temp32 < 0 then 0 else toU32 temp32 }

/-- The function `ADC_UpdateLoopVoltage` of adc.c. -/
def ADC_UpdateLoopVoltage (GetValueForCode : calibration_t → Nat → Int)
    (ADC1_GetResult : Nat → Nat) (s : AdcState) : AdcState :=
  let temp32u := oversample VOLTAGE_ADC_OVERSAMPLE ADC1_GetResult
  let temp32 := toI32 (GetValueForCode s.adc_voltage_calibration temp32u)
  { s with adc_voltage_code := temp32u,
           loop_voltage := if temp32 < 0 then 0 else toU32 temp32 }

/-- The function `ADC_SaveLoopCurrentCalibrationPoint` of adc.c. -/
def ADC_SaveLoopCurrentCalibrationPoint (pointNum : Nat) (measuredValue : Nat)
    (s : AdcState) : AdcState :=
  let p : calibration_point_t := { value := measuredValue, code := s.adc_current_code }
  if pointNum = 1 then
    { s with adc_current_calibration := { s.adc_current_calibration with point1 := p } }
  else
    { s with adc_current_calibration := { s.adc_current_calibration with point2 := p } }

/-- The function `ADC_SaveLoopVoltageCalibrationPoint` of adc.c. -/
def ADC_SaveLoopVoltageCalibrationPoint (pointNum : Nat) (measuredValue : Nat)
    (s : AdcState) : AdcState :=
  let p : calibration_point_t := { value := measuredValue, code := s.adc_voltage_code }
  if pointNum = 1 then
    { s with adc_voltage_calibration := { s.adc_voltage_calibration with point1 := p } }
  else
    { s with adc_voltage_calibration := { s.adc_voltage_calibration with point2 := p } }

/-! ## Initialisation (adc.c) -/

/-- The function `ADC_Initialize` of adc.c, without the converter and port setup: it
installs the default calibration of both channels, recomputes their coefficients
through `CalculateCoefficients` (a parameter, its module not being among the sources)
and zeroes the blink counter. -/
def ADC_Initialize (CalculateCoefficients : calibration_t → calibration_t)
    (s : AdcState) : AdcState :=
  let v : calibration_t :=
    { s.adc_voltage_calibration with
      point1 := { value := 0, code := 0 },
      point2 := { value := 20000, code := 3276 * (VOLTAGE_ADC_OVERSAMPLE : Int) },
      scale := 10000 }
  let c : calibration_t :=
    { s.adc_current_calibration with
      point1 := { value := 0, code := 0 },
      point2 := { value := 20000, code := 3276 * (CURRENT_ADC_OVERSAMPLE : Int) },
      scale := 10000 }
  { s with adc_voltage_calibration := CalculateCoefficients v,
           adc_current_calibration := CalculateCoefficients c,
           blink_counter := 0 }

/-! ## The simulator's output controller (gui_wrapper.c) -/

/-- The file-scope `dac_state` of gui_wrapper.c. The array `setting` has `PROFILE_COUNT`
entries. -/
structure dac_state_t where
  setting : List Nat
  dac_code : Nat
  profile : Nat
  mode : Nat
  waveform : Nat
  period : Nat
  wave_min : Nat
  wave_max : Nat
  total_cycles : Nat
  current_cycle : Nat
deriving DecidableEq

/-- The `dac_state` that `guiInitialize` of gui_wrapper.c sets up (`WAVE_MEANDR` is 0);
`PROFILE_COUNT` is a macro of a header that is not among the sources and is a
parameter. -/
def guiInitialize (PROFILE_COUNT : Nat) : dac_state_t :=
  { setting := List.replicate PROFILE_COUNT 4000, dac_code := 0, profile := 0,
    mode := DAC_MODE_CONST, waveform := 0, period := 1500, wave_min := 4000,
    wave_max := 20000, total_cycles := 95684, current_cycle := 87521 }

/-- The function `DAC_SetSettingConst` of gui_wrapper.c, `value` being a `uint32_t`. -/
def DAC_SetSettingConst (value : Nat) (d : dac_state_t) : dac_state_t :=
  { d with setting := d.setting.set d.profile (value % 4294967296) }

/-- The function `DAC_SetProfile` of gui_wrapper.c, `num` being an `int16_t`. -/
def DAC_SetProfile (PROFILE_COUNT : Nat) (num : Int) (d : dac_state_t) : dac_state_t :=
  let num1 : Int :=
    if num ≥ (PROFILE_COUNT : Int) then 0
    else if num < 0 then toI16 ((PROFILE_COUNT : Int) - 1)
    else num
  { d with profile := toU8 num1 }

/-- The function `DAC_GetSettingConst` of gui_wrapper.c. -/
def DAC_GetSettingConst (d : dac_state_t) : Nat := d.setting.getD d.profile 0

/-- The function `DAC_GetActiveProfile` of gui_wrapper.c. -/
def DAC_GetActiveProfile (d : dac_state_t) : Nat := d.profile

/-- Clamping to `[DAC_MIN_SETTING, DAC_MAX_SETTING]`, as the specification words the
contract of `setConstSetpoint`. -/
def clampSetting (value : Nat) : Nat :=
  if value < DAC_MIN_SETTING then DAC_MIN_SETTING
  else if value > DAC_MAX_SETTING then DAC_MAX_SETTING
  else value

/-! ## Branch conditions of the monitor and the specification's error condition -/

/-- The condition under which the error check ORs `LOOP_ERROR` into the status, read
off the branches of `checkLoopError`, in machine arithmetic. -/
def errorTaken (k : AdcHeader) (dac : DacView) (current : Nat) : Prop :=
  (dac.outputState ≠ 0 ∧ dac.mode = DAC_MODE_CONST ∧
      c_abs (toI32 (toI32 current - toI32 dac.settingConst)) > (k.LOOP_ERROR_TRESHOLD : Int)) ∨
  (dac.outputState ≠ 0 ∧ dac.mode ≠ DAC_MODE_CONST ∧
      (toI32 current < toI32 (toI32 dac.waveMin - k.LOOP_ERROR_TRESHOLD) ∨
       toI32 current > toI32 (toI32 dac.waveMax + k.LOOP_ERROR_TRESHOLD))) ∨
  (dac.outputState = 0 ∧ current > k.LOOP_ERROR_TRESHOLD)

/-- The condition under which the break check ORs `LOOP_BREAK` into the status, read
off the branches of `checkLoopBreak`. -/
def breakTaken (k : AdcHeader) (dac : DacView) (current counter : Nat) : Prop :=
  (dac.outputState ≠ 0 ∧ current ≤ k.LOOP_BREAK_TRESHOLD) ∨
  (dac.outputState = 0 ∧
    (if counter < BLINK_PERIOD - 1 then counter + 1 else 0) % 256 < BLINK_PERIOD / 2)

/-- The error condition as the specification words it, in unbounded integer
arithmetic: constant mode compares the distance to the constant setpoint, waveform
mode the band `[waveMin - threshold, waveMax + threshold]`, a disabled output the
threshold alone. -/
def claimedErrorCondition (k : AdcHeader) (dac : DacView) (current : Nat) : Prop :=
  (dac.outputState ≠ 0 ∧ dac.mode = DAC_MODE_CONST ∧
      |(current : Int) - (dac.settingConst : Int)| > (k.LOOP_ERROR_TRESHOLD : Int)) ∨
  (dac.outputState ≠ 0 ∧ dac.mode = DAC_MODE_WAVEFORM ∧
      ((current : Int) < (dac.waveMin : Int) - (k.LOOP_ERROR_TRESHOLD : Int) ∨
       (current : Int) > (dac.waveMax : Int) + (k.LOOP_ERROR_TRESHOLD : Int))) ∨
  (dac.outputState = 0 ∧ current > k.LOOP_ERROR_TRESHOLD)

instance (k : AdcHeader) (dac : DacView) (current : Nat) :
    Decidable (claimedErrorCondition k dac current) := by
  unfold claimedErrorCondition
  infer_instance

/-! ## Status-mask arithmetic -/

theorem or_mask_mod (a m : Nat) (ha : a < 256) (hm : m < 256) : (a ||| m) % 256 = a ||| m :=
  Nat.mod_eq_of_lt (Nat.or_lt_two_pow (n := 8) ha hm)

theorem bitSet_or_self (a m : Nat) (hm : m ≠ 0) : bitSet (a ||| m) m = true := by
  have h : (a ||| m) &&& m = m := by
    apply Nat.eq_of_testBit_eq
    intro i
    rw [Nat.testBit_and, Nat.testBit_or]
    cases a.testBit i <;> cases m.testBit i <;> rfl
  simp [bitSet, h, hm]

theorem bitSet_or_other (a m n : Nat) (h : m &&& n = 0) : bitSet (a ||| m) n = bitSet a n := by
  have h2 : (a ||| m) &&& n = a &&& n := by
    rw [Nat.and_comm, Nat.and_or_distrib_left, Nat.and_comm n m, h, Nat.or_zero, Nat.and_comm]
  simp [bitSet, h2]

theorem bitSet_of_and_eq_zero (a n : Nat) (h : a &&& n = 0) : bitSet a n = false := by
  simp [bitSet, h]

/-- The status after `ADC_UpdateLoopMonitor` outside normal mode. -/
theorem monitor_service (k : AdcHeader) (device_mode : Nat) (dac : DacView) (s : AdcState)
    (hmode : device_mode ≠ k.MODE_NORMAL) :
    ADC_UpdateLoopMonitor k device_mode dac s =
      { s with loop_status := k.LOOP_OK % 256,
               led_error := (k.LOOP_OK % 256) &&& k.LOOP_ERROR,
               led_break := (k.LOOP_OK % 256) &&& k.LOOP_BREAK } := by
  simp [ADC_UpdateLoopMonitor, hmode]

/-- The BREAK bit of the status after the two checks is the one the break check left:
the error check only ORs `LOOP_ERROR` in. -/
theorem checkLoopError_break (k : AdcHeader) (hk : k.WellFormed) (dac : DacView) (s : AdcState)
    (hs : s.loop_status < 256) :
    bitSet (checkLoopError k dac s).loop_status k.LOOP_BREAK = bitSet s.loop_status k.LOOP_BREAK := by
  obtain ⟨_, _, hE, _, _, _, _, hBE, _, _⟩ := hk
  have hEB : k.LOOP_ERROR &&& k.LOOP_BREAK = 0 := by rw [Nat.and_comm]; exact hBE
  unfold checkLoopError
  split_ifs <;> simp [or_mask_mod _ _ hs hE, bitSet_or_other _ _ _ hEB]

theorem checkLoopError_counter (k : AdcHeader) (dac : DacView) (s : AdcState) :
    (checkLoopError k dac s).blink_counter = s.blink_counter := by
  unfold checkLoopError
  split_ifs <;> rfl

theorem checkLoopBreak_status_lt (k : AdcHeader) (dac : DacView) (s : AdcState)
    (hs : s.loop_status < 256) : (checkLoopBreak k dac s).loop_status < 256 := by
  unfold checkLoopBreak
  dsimp only
  split_ifs <;> first | exact hs | exact Nat.mod_lt _ (by norm_num)

theorem checkLoopBreak_error (k : AdcHeader) (hk : k.WellFormed) (dac : DacView) (s : AdcState)
    (hs : s.loop_status < 256) :
    bitSet (checkLoopBreak k dac s).loop_status k.LOOP_ERROR = bitSet s.loop_status k.LOOP_ERROR := by
  obtain ⟨_, hB, _, _, _, _, _, hBE, _, _⟩ := hk
  unfold checkLoopBreak
  dsimp only
  split_ifs <;> simp [or_mask_mod _ _ hs hB, bitSet_or_other _ _ _ hBE]

theorem checkLoopBreak_current (k : AdcHeader) (dac : DacView) (s : AdcState) :
    (checkLoopBreak k dac s).loop_current = s.loop_current := by
  unfold checkLoopBreak
  dsimp only
  split_ifs <;> rfl

theorem checkLoopError_error (k : AdcHeader) (hk : k.WellFormed) (dac : DacView) (s : AdcState)
    (hs : s.loop_status < 256) (h0 : bitSet s.loop_status k.LOOP_ERROR = false) :
    bitSet (checkLoopError k dac s).loop_status k.LOOP_ERROR = true ↔
      errorTaken k dac s.loop_current := by
  obtain ⟨_, _, hE, _, hE0, _, _, _, _, _⟩ := hk
  unfold checkLoopError errorTaken
  split_ifs <;> simp_all [or_mask_mod _ _ hs hE, bitSet_or_self _ _ hE0]

theorem checkLoopBreak_break (k : AdcHeader) (hk : k.WellFormed) (dac : DacView) (s : AdcState)
    (hs : s.loop_status < 256) (h0 : bitSet s.loop_status k.LOOP_BREAK = false) :
    bitSet (checkLoopBreak k dac s).loop_status k.LOOP_BREAK = true ↔
      breakTaken k dac s.loop_current s.blink_counter := by
  obtain ⟨_, hB, _, hB0, _, _, _, _, _, _⟩ := hk
  unfold checkLoopBreak breakTaken
  dsimp only
  split_ifs <;> simp_all [or_mask_mod _ _ hs hB, bitSet_or_self _ _ hB0]

theorem checkLoopBreak_counter (k : AdcHeader) (dac : DacView) (s : AdcState) :
    (checkLoopBreak k dac s).blink_counter =
      if dac.outputState ≠ 0 then 0
      else (if s.blink_counter < BLINK_PERIOD - 1 then s.blink_counter + 1 else 0) % 256 := by
  unfold checkLoopBreak
  dsimp only
  split_ifs <;> rfl

theorem status_ok (k : AdcHeader) (hk : k.WellFormed) :
    k.LOOP_OK % 256 = k.LOOP_OK ∧ bitSet k.LOOP_OK k.LOOP_BREAK = false ∧
      bitSet k.LOOP_OK k.LOOP_ERROR = false := by
  obtain ⟨hO, _, _, _, _, hOB, hOE, _, _, _⟩ := hk
  exact ⟨Nat.mod_eq_of_lt hO, bitSet_of_and_eq_zero _ _ hOB, bitSet_of_and_eq_zero _ _ hOE⟩

/-- The status word after `ADC_UpdateLoopMonitor` in normal mode. -/
theorem monitor_normal_status (k : AdcHeader) (device_mode : Nat) (dac : DacView) (s : AdcState)
    (hmode : device_mode = k.MODE_NORMAL) :
    (ADC_UpdateLoopMonitor k device_mode dac s).loop_status =
      (checkLoopError k dac
        (checkLoopBreak k dac { s with loop_status := k.LOOP_OK % 256 })).loop_status := by
  simp [ADC_UpdateLoopMonitor, hmode]

theorem monitor_normal_counter (k : AdcHeader) (device_mode : Nat) (dac : DacView) (s : AdcState)
    (hmode : device_mode = k.MODE_NORMAL) :
    (ADC_UpdateLoopMonitor k device_mode dac s).blink_counter =
      if dac.outputState ≠ 0 then 0
      else (if s.blink_counter < BLINK_PERIOD - 1 then s.blink_counter + 1 else 0) % 256 := by
  simp only [ADC_UpdateLoopMonitor, hmode, if_true, checkLoopError_counter, checkLoopBreak_counter]

theorem monitor_normal_error (k : AdcHeader) (hk : k.WellFormed) (device_mode : Nat)
    (dac : DacView) (s : AdcState) (hmode : device_mode = k.MODE_NORMAL) :
    bitSet (ADC_UpdateLoopMonitor k device_mode dac s).loop_status k.LOOP_ERROR = true ↔
      errorTaken k dac s.loop_current := by
  have hok := status_ok k hk
  have hlt : ({ s with loop_status := k.LOOP_OK % 256 } : AdcState).loop_status < 256 :=
    Nat.mod_lt _ (by norm_num)
  rw [monitor_normal_status k device_mode dac s hmode,
    checkLoopError_error k hk dac _ (checkLoopBreak_status_lt k dac _ hlt)
      (by rw [checkLoopBreak_error k hk dac _ hlt]; simp [hok.1, hok.2.2]),
    checkLoopBreak_current]

theorem monitor_normal_break (k : AdcHeader) (hk : k.WellFormed) (device_mode : Nat)
    (dac : DacView) (s : AdcState) (hmode : device_mode = k.MODE_NORMAL) :
    bitSet (ADC_UpdateLoopMonitor k device_mode dac s).loop_status k.LOOP_BREAK = true ↔
      breakTaken k dac s.loop_current s.blink_counter := by
  have hok := status_ok k hk
  have hlt : ({ s with loop_status := k.LOOP_OK % 256 } : AdcState).loop_status < 256 :=
    Nat.mod_lt _ (by norm_num)
  rw [monitor_normal_status k device_mode dac s hmode,
    checkLoopError_break k hk dac _ (checkLoopBreak_status_lt k dac _ hlt),
    checkLoopBreak_break k hk dac _ hlt (by simp [hok.1, hok.2.1])]

/-! ## Claims on the loop monitor -/

/-- C1: outside normal mode (calibration / service mode) `ADC_UpdateLoopMonitor` leaves
`loop_status` equal to `LOOP_OK`, with neither the BREAK nor the ERROR bit set,
whatever the measured current, blink counter, output state, DAC mode and setpoints. -/
theorem C1_service_mode_forces_ok (k : AdcHeader) (device_mode : Nat) (dac : DacView)
    (s : AdcState) (hk : k.WellFormed) (hmode : device_mode ≠ k.MODE_NORMAL) :
    (ADC_UpdateLoopMonitor k device_mode dac s).loop_status = k.LOOP_OK ∧
    bitSet (ADC_UpdateLoopMonitor k device_mode dac s).loop_status k.LOOP_BREAK = false ∧
    bitSet (ADC_UpdateLoopMonitor k device_mode dac s).loop_status k.LOOP_ERROR = false := by
  have hok := status_ok k hk
  rw [monitor_service k device_mode dac s hmode]
  simp [hok.1, hok.2.1, hok.2.2]

theorem C1_service_mode_forces_ok_witness :
    exampleHeader.WellFormed ∧ (1 : Nat) ≠ exampleHeader.MODE_NORMAL ∧
    (ADC_UpdateLoopMonitor exampleHeader 1 ⟨1, DAC_MODE_CONST, 4000, 4000, 20000⟩
      (exampleState 30000 7)).loop_status = exampleHeader.LOOP_OK ∧
    bitSet (ADC_UpdateLoopMonitor exampleHeader 1 ⟨1, DAC_MODE_CONST, 4000, 4000, 20000⟩
      (exampleState 30000 7)).loop_status exampleHeader.LOOP_BREAK = false ∧
    bitSet (ADC_UpdateLoopMonitor exampleHeader 1 ⟨1, DAC_MODE_CONST, 4000, 4000, 20000⟩
      (exampleState 30000 7)).loop_status exampleHeader.LOOP_ERROR = false :=
  ⟨by decide, by decide,
    C1_service_mode_forces_ok exampleHeader 1 ⟨1, DAC_MODE_CONST, 4000, 4000, 20000⟩
      (exampleState 30000 7) (by decide) (by decide)⟩

/-- C3: in normal mode with the output enabled, after `ADC_UpdateLoopMonitor` the BREAK
bit is set if and only if `loop_current <= LOOP_BREAK_TRESHOLD`, and the blink counter
is 0, whatever the measured current and the prior blink counter. -/
theorem C3_enabled_break_iff_threshold (k : AdcHeader) (device_mode : Nat) (dac : DacView)
    (s : AdcState) (hk : k.WellFormed) (hmode : device_mode = k.MODE_NORMAL)
    (hon : dac.outputState ≠ 0) :
    (bitSet (ADC_UpdateLoopMonitor k device_mode dac s).loop_status k.LOOP_BREAK = true ↔
      s.loop_current ≤ k.LOOP_BREAK_TRESHOLD) ∧
    (ADC_UpdateLoopMonitor k device_mode dac s).blink_counter = 0 := by
  constructor
  · rw [monitor_normal_break k hk device_mode dac s hmode]
    simp [breakTaken, hon]
  · rw [monitor_normal_counter k device_mode dac s hmode]
    simp [hon]

/-- C4: in normal mode with the output disabled and a blink counter `c` in `[0, 25)`,
one call of `ADC_UpdateLoopMonitor` advances the counter to `(c + 1) mod 25`, which is
again in `[0, 25)`; the BREAK bit is set on that tick if and only if the advanced
counter (mod 25) is below 12; and the BREAK bit is the same for every measured
current. -/
theorem C4_disabled_blink (k : AdcHeader) (device_mode : Nat) (dac : DacView)
    (s : AdcState) (hk : k.WellFormed) (hmode : device_mode = k.MODE_NORMAL)
    (hoff : dac.outputState = 0) (hc : s.blink_counter < 25) :
    (ADC_UpdateLoopMonitor k device_mode dac s).blink_counter = (s.blink_counter + 1) % 25 ∧
    (ADC_UpdateLoopMonitor k device_mode dac s).blink_counter < 25 ∧
    (bitSet (ADC_UpdateLoopMonitor k device_mode dac s).loop_status k.LOOP_BREAK = true ↔
      (ADC_UpdateLoopMonitor k device_mode dac s).blink_counter % 25 < 12) ∧
    (∀ current : Nat,
      bitSet (ADC_UpdateLoopMonitor k device_mode dac
          { s with loop_current := current }).loop_status k.LOOP_BREAK =
        bitSet (ADC_UpdateLoopMonitor k device_mode dac s).loop_status k.LOOP_BREAK) := by
  have hcnt : (ADC_UpdateLoopMonitor k device_mode dac s).blink_counter
      = (s.blink_counter + 1) % 25 := by
    rw [monitor_normal_counter k device_mode dac s hmode]
    simp only [hoff, BLINK_PERIOD]
    split_ifs <;> omega
  have hbrk : ∀ t : AdcState, t.blink_counter = s.blink_counter →
      (bitSet (ADC_UpdateLoopMonitor k device_mode dac t).loop_status k.LOOP_BREAK = true ↔
        (s.blink_counter + 1) % 25 < 12) := by
    intro t ht
    rw [monitor_normal_break k hk device_mode dac t hmode]
    simp only [breakTaken, hoff, BLINK_PERIOD, ht]
    split_ifs <;> simp <;> omega
  refine ⟨hcnt, ?_, ?_, ?_⟩
  · rw [hcnt]; exact Nat.mod_lt _ (by norm_num)
  · rw [hcnt, Nat.mod_mod]; exact hbrk s rfl
  · intro current
    have h1 := hbrk { s with loop_current := current } rfl
    have h2 := hbrk s rfl
    rw [Bool.eq_iff_iff, h1, h2]

/-- With the output enabled the result of `ADC_UpdateLoopMonitor` does not depend on the
prior status, blink counter or indicator signals. -/
theorem monitor_enabled_fixed (k : AdcHeader) (device_mode : Nat) (dac : DacView)
    (s : AdcState) (hon : dac.outputState ≠ 0) :
    ADC_UpdateLoopMonitor k device_mode dac (ADC_UpdateLoopMonitor k device_mode dac s) =
      ADC_UpdateLoopMonitor k device_mode dac s := by
  by_cases hmode : device_mode = k.MODE_NORMAL
  · simp only [ADC_UpdateLoopMonitor, hmode, if_true, checkLoopBreak, checkLoopError, hon,
      ne_eq, not_false_eq_true]
    split_ifs <;> simp_all
  · rw [monitor_service k device_mode dac _ hmode, monitor_service k device_mode dac s hmode]

/-- C7: with the output enabled and unchanged inputs, a second call of
`ADC_UpdateLoopMonitor` yields the same `loop_status` and the same blink counter as the
first (indeed the same state), in every device mode; in normal mode that counter
is 0. -/
theorem C7_monitor_idempotent (k : AdcHeader) (device_mode : Nat) (dac : DacView)
    (s : AdcState) (hon : dac.outputState ≠ 0) :
    (ADC_UpdateLoopMonitor k device_mode dac
        (ADC_UpdateLoopMonitor k device_mode dac s)).loop_status =
      (ADC_UpdateLoopMonitor k device_mode dac s).loop_status ∧
    (ADC_UpdateLoopMonitor k device_mode dac
        (ADC_UpdateLoopMonitor k device_mode dac s)).blink_counter =
      (ADC_UpdateLoopMonitor k device_mode dac s).blink_counter ∧
    ADC_UpdateLoopMonitor k device_mode dac (ADC_UpdateLoopMonitor k device_mode dac s) =
      ADC_UpdateLoopMonitor k device_mode dac s ∧
    (device_mode = k.MODE_NORMAL →
      (ADC_UpdateLoopMonitor k device_mode dac s).blink_counter = 0) := by
  have h := monitor_enabled_fixed k device_mode dac s hon
  refine ⟨by rw [h], by rw [h], h, ?_⟩
  intro hmode
  rw [monitor_normal_counter k device_mode dac s hmode]
  simp [hon]

theorem toI32_of_range (x : Int) (h1 : -2147483648 ≤ x) (h2 : x < 2147483648) : toI32 x = x := by
  unfold toI32
  omega

theorem c_abs_of_range (x : Int) (h1 : -2147483648 < x) (h2 : x < 2147483648) :
    c_abs x = |x| := by
  unfold c_abs
  rw [Int.natCast_natAbs]
  apply toI32_of_range
  · have := abs_nonneg x
    omega
  · rw [abs_lt]
    constructor <;> omega

theorem toI32_natCast (n : Nat) (h : n < 2147483648) : toI32 (n : Int) = n :=
  toI32_of_range _ (by omega) (by omega)

theorem toI32_sub_natCast (a b : Nat) (ha : a < 2147483648) (hb : b < 2147483648) :
    toI32 ((a : Int) - (b : Int)) = (a : Int) - (b : Int) :=
  toI32_of_range _ (by omega) (by omega)

theorem toI32_add_natCast (a b : Nat) (h : a + b < 2147483648) :
    toI32 ((a : Int) + (b : Int)) = (a : Int) + (b : Int) :=
  toI32_of_range _ (by omega) (by omega)

theorem c_abs_sub_natCast (a b : Nat) (ha : a < 2147483648) (hb : b < 2147483648) :
    c_abs ((a : Int) - (b : Int)) = |(a : Int) - (b : Int)| :=
  c_abs_of_range _ (by omega) (by omega)

/-- On operands for which no `int32_t` operation of the error check overflows, the
machine condition is the specification's condition. -/
theorem errorTaken_iff_claimed (k : AdcHeader) (hk : k.WellFormed) (dac : DacView) (current : Nat)
    (hm : dac.mode = DAC_MODE_CONST ∨ dac.mode = DAC_MODE_WAVEFORM)
    (hcur : current < 2147483648) (hconst : dac.settingConst < 2147483648)
    (hmin : dac.waveMin < 2147483648) (hmax : dac.waveMax < 2147483648)
    (hsum : dac.outputState ≠ 0 → dac.mode = DAC_MODE_WAVEFORM →
      dac.waveMax + k.LOOP_ERROR_TRESHOLD < 2147483648) :
    errorTaken k dac current ↔ claimedErrorCondition k dac current := by
  have hT : k.LOOP_ERROR_TRESHOLD < 2147483648 := hk.2.2.2.2.2.2.2.2.2
  unfold errorTaken claimedErrorCondition
  rw [toI32_natCast _ hcur, toI32_natCast _ hconst, toI32_natCast _ hmin,
    toI32_natCast _ hmax, toI32_sub_natCast _ _ hcur hconst, c_abs_sub_natCast _ _ hcur hconst,
    toI32_sub_natCast _ _ hmin hT]
  by_cases hon : dac.outputState = 0
  · simp [hon]
  · rcases hm with hm | hm
    · simp [hon, hm, DAC_MODE_CONST, DAC_MODE_WAVEFORM]
    · rw [toI32_add_natCast _ _ (hsum hon hm)]
      simp [hon, hm, DAC_MODE_CONST, DAC_MODE_WAVEFORM]

/-- C2 (as stated) fails: with the output enabled in waveform mode, `waveMin = 4000`,
`waveMax = 2147483647` and a measured current of 5000 (all non-negative `int32_t`
values), the sum `waveMax + LOOP_ERROR_TRESHOLD` wraps around to a negative `int32_t`, so
the monitor sets the ERROR bit although 5000 lies inside the band. -/
theorem C2_counterexample_band_overflow :
    exampleHeader.WellFormed ∧
    (5000 : Nat) < 2147483648 ∧ (4000 : Nat) < 2147483648 ∧ (2147483647 : Nat) < 2147483648 ∧
    bitSet (ADC_UpdateLoopMonitor exampleHeader exampleHeader.MODE_NORMAL
        { outputState := 1, mode := DAC_MODE_WAVEFORM, settingConst := 4000,
          waveMin := 4000, waveMax := 2147483647 }
        (exampleState 5000 0)).loop_status exampleHeader.LOOP_ERROR = true ∧
    ¬ claimedErrorCondition exampleHeader
        { outputState := 1, mode := DAC_MODE_WAVEFORM, settingConst := 4000,
          waveMin := 4000, waveMax := 2147483647 } 5000 := by
  decide

/-- C2 (amended): in normal mode, for a measured current and setpoints that fit a
non-negative `int32_t`, and such that in enabled waveform mode
`waveMax + LOOP_ERROR_TRESHOLD` fits an `int32_t` too, the ERROR bit after
`ADC_UpdateLoopMonitor` is set if and only if the specification's error condition
holds; the bit is the same for every prior blink counter and status, so it depends
neither on the blink counter nor on the BREAK decision. -/
theorem C2_error_iff_condition (k : AdcHeader) (device_mode : Nat) (dac : DacView)
    (s : AdcState) (hk : k.WellFormed) (hmode : device_mode = k.MODE_NORMAL)
    (hm : dac.mode = DAC_MODE_CONST ∨ dac.mode = DAC_MODE_WAVEFORM)
    (hcur : s.loop_current < 2147483648) (hconst : dac.settingConst < 2147483648)
    (hmin : dac.waveMin < 2147483648) (hmax : dac.waveMax < 2147483648)
    (hsum : dac.outputState ≠ 0 → dac.mode = DAC_MODE_WAVEFORM →
      dac.waveMax + k.LOOP_ERROR_TRESHOLD < 2147483648) :
    (bitSet (ADC_UpdateLoopMonitor k device_mode dac s).loop_status k.LOOP_ERROR = true ↔
      claimedErrorCondition k dac s.loop_current) ∧
    (∀ t : AdcState, t.loop_current = s.loop_current →
      bitSet (ADC_UpdateLoopMonitor k device_mode dac t).loop_status k.LOOP_ERROR =
        bitSet (ADC_UpdateLoopMonitor k device_mode dac s).loop_status k.LOOP_ERROR) := by
  constructor
  · rw [monitor_normal_error k hk device_mode dac s hmode]
    exact errorTaken_iff_claimed k hk dac s.loop_current hm hcur hconst hmin hmax hsum
  · intro t ht
    rw [Bool.eq_iff_iff, monitor_normal_error k hk device_mode dac t hmode,
      monitor_normal_error k hk device_mode dac s hmode, ht]

theorem C2_error_iff_condition_witness :
    exampleHeader.WellFormed ∧
    (bitSet (ADC_UpdateLoopMonitor exampleHeader 0
        { outputState := 1, mode := DAC_MODE_WAVEFORM, settingConst := 4000,
          waveMin := 4000, waveMax := 20000 }
        (exampleState 20600 3)).loop_status exampleHeader.LOOP_ERROR = true ↔
      claimedErrorCondition exampleHeader
        { outputState := 1, mode := DAC_MODE_WAVEFORM, settingConst := 4000,
          waveMin := 4000, waveMax := 20000 } 20600) :=
  ⟨by decide,
    (C2_error_iff_condition exampleHeader 0
      { outputState := 1, mode := DAC_MODE_WAVEFORM, settingConst := 4000,
        waveMin := 4000, waveMax := 20000 }
      (exampleState 20600 3) (by decide) (by decide) (by decide) (by decide) (by decide)
      (by decide) (by decide) (by decide)).1⟩

/-- C5 (as stated) fails: in normal mode with the output enabled in constant mode,
setpoint 4000 and `LOOP_ERROR_TRESHOLD = 500`, a measured current of 4600 does set the
ERROR bit, since `|4600 - 4000| = 600 > 500`. -/
theorem C5_counterexample_4600_sets_error :
    exampleHeader.LOOP_ERROR_TRESHOLD = 500 ∧
    bitSet (ADC_UpdateLoopMonitor exampleHeader exampleHeader.MODE_NORMAL
        { outputState := 1, mode := DAC_MODE_CONST, settingConst := 4000,
          waveMin := 4000, waveMax := 20000 }
        (exampleState 4600 0)).loop_status exampleHeader.LOOP_ERROR = true := by
  decide

/-- C5 (amended): in normal mode with the output enabled in constant mode, setpoint
4000 and `LOOP_ERROR_TRESHOLD = 500`, `ADC_UpdateLoopMonitor` sets the ERROR bit for a
measured current of 4600 and for 4700, and does not set it for 4500, the largest
current within the threshold. -/
theorem C5_const_mode_example (k : AdcHeader) (device_mode : Nat) (dac : DacView)
    (s : AdcState) (hk : k.WellFormed) (hthr : k.LOOP_ERROR_TRESHOLD = 500)
    (hmode : device_mode = k.MODE_NORMAL) (hon : dac.outputState ≠ 0)
    (hm : dac.mode = DAC_MODE_CONST) (hset : dac.settingConst = 4000) :
    bitSet (ADC_UpdateLoopMonitor k device_mode dac
      { s with loop_current := 4600 }).loop_status k.LOOP_ERROR = true ∧
    bitSet (ADC_UpdateLoopMonitor k device_mode dac
      { s with loop_current := 4700 }).loop_status k.LOOP_ERROR = true ∧
    bitSet (ADC_UpdateLoopMonitor k device_mode dac
      { s with loop_current := 4500 }).loop_status k.LOOP_ERROR = false := by
  have key : ∀ c : Nat, c < 2147483648 →
      (bitSet (ADC_UpdateLoopMonitor k device_mode dac
          { s with loop_current := c }).loop_status k.LOOP_ERROR = true ↔
        |(c : Int) - 4000| > 500) := by
    intro c hc
    rw [monitor_normal_error k hk device_mode dac _ hmode]
    simp only [errorTaken, hon, hm, hset, hthr, ne_eq, not_false_eq_true, true_and,
      not_true_eq_false, false_and, or_false]
    rw [toI32_natCast _ hc, toI32_natCast 4000 (by norm_num),
      toI32_sub_natCast _ _ hc (by norm_num), c_abs_sub_natCast _ _ hc (by norm_num)]
    norm_num
  refine ⟨(key 4600 (by norm_num)).2 (by norm_num), (key 4700 (by norm_num)).2 (by norm_num), ?_⟩
  rw [← Bool.not_eq_true, key 4500 (by norm_num)]
  norm_num

theorem C5_const_mode_example_witness :
    exampleHeader.WellFormed ∧ exampleHeader.LOOP_ERROR_TRESHOLD = 500 ∧
    bitSet (ADC_UpdateLoopMonitor exampleHeader 0
      { outputState := 1, mode := DAC_MODE_CONST, settingConst := 4000,
        waveMin := 4000, waveMax := 20000 }
      { exampleState 0 0 with loop_current := 4600 }).loop_status
        exampleHeader.LOOP_ERROR = true ∧
    bitSet (ADC_UpdateLoopMonitor exampleHeader 0
      { outputState := 1, mode := DAC_MODE_CONST, settingConst := 4000,
        waveMin := 4000, waveMax := 20000 }
      { exampleState 0 0 with loop_current := 4700 }).loop_status
        exampleHeader.LOOP_ERROR = true ∧
    bitSet (ADC_UpdateLoopMonitor exampleHeader 0
      { outputState := 1, mode := DAC_MODE_CONST, settingConst := 4000,
        waveMin := 4000, waveMax := 20000 }
      { exampleState 0 0 with loop_current := 4500 }).loop_status
        exampleHeader.LOOP_ERROR = false :=
  ⟨by decide, by decide,
    C5_const_mode_example exampleHeader 0
      { outputState := 1, mode := DAC_MODE_CONST, settingConst := 4000,
        waveMin := 4000, waveMax := 20000 }
      (exampleState 0 0) (by decide) (by decide) (by decide) (by decide) (by decide)
      (by decide)⟩

/-- C6 (as stated) fails: in normal mode with the output enabled in waveform mode,
`waveMin = 4000`, `waveMax = 20000` and `LOOP_ERROR_TRESHOLD = 500`, a measured current of
3400 does set the ERROR bit, since the lower bound minus the threshold is 3500, not
3400. -/
theorem C6_counterexample_3400_sets_error :
    exampleHeader.LOOP_ERROR_TRESHOLD = 500 ∧
    bitSet (ADC_UpdateLoopMonitor exampleHeader exampleHeader.MODE_NORMAL
        { outputState := 1, mode := DAC_MODE_WAVEFORM, settingConst := 4000,
          waveMin := 4000, waveMax := 20000 }
        (exampleState 3400 0)).loop_status exampleHeader.LOOP_ERROR = true := by
  decide

/-- C6 (amended): in normal mode with the output enabled in waveform mode,
`waveMin = 4000`, `waveMax = 20000` and `LOOP_ERROR_TRESHOLD = 500`,
`ADC_UpdateLoopMonitor` does not set the ERROR bit for a measured current of 3500 (the
lower bound minus the threshold) and sets it for 3499, and so also for 3400 and
3399. -/
theorem C6_wave_mode_example (k : AdcHeader) (device_mode : Nat) (dac : DacView)
    (s : AdcState) (hk : k.WellFormed) (hthr : k.LOOP_ERROR_TRESHOLD = 500)
    (hmode : device_mode = k.MODE_NORMAL) (hon : dac.outputState ≠ 0)
    (hm : dac.mode = DAC_MODE_WAVEFORM) (hmin : dac.waveMin = 4000)
    (hmax : dac.waveMax = 20000) :
    bitSet (ADC_UpdateLoopMonitor k device_mode dac
      { s with loop_current := 3500 }).loop_status k.LOOP_ERROR = false ∧
    bitSet (ADC_UpdateLoopMonitor k device_mode dac
      { s with loop_current := 3499 }).loop_status k.LOOP_ERROR = true ∧
    bitSet (ADC_UpdateLoopMonitor k device_mode dac
      { s with loop_current := 3400 }).loop_status k.LOOP_ERROR = true ∧
    bitSet (ADC_UpdateLoopMonitor k device_mode dac
      { s with loop_current := 3399 }).loop_status k.LOOP_ERROR = true := by
  have hne : dac.mode ≠ DAC_MODE_CONST := by rw [hm]; decide
  have key : ∀ c : Nat, c < 2147483648 →
      (bitSet (ADC_UpdateLoopMonitor k device_mode dac
          { s with loop_current := c }).loop_status k.LOOP_ERROR = true ↔
        ((c : Int) < 3500 ∨ (c : Int) > 20500)) := by
    intro c hc
    rw [monitor_normal_error k hk device_mode dac _ hmode]
    simp only [errorTaken, hon, hne, hmin, hmax, hthr, ne_eq, not_false_eq_true, true_and,
      not_true_eq_false, false_and, or_false, false_or]
    rw [toI32_natCast _ hc, toI32_natCast 4000 (by norm_num), toI32_natCast 20000 (by norm_num),
      toI32_sub_natCast 4000 500 (by norm_num) (by norm_num),
      toI32_add_natCast 20000 500 (by norm_num)]
    norm_num
  refine ⟨?_, (key 3499 (by norm_num)).2 (by norm_num), (key 3400 (by norm_num)).2 (by norm_num),
    (key 3399 (by norm_num)).2 (by norm_num)⟩
  rw [← Bool.not_eq_true, key 3500 (by norm_num)]
  norm_num

theorem C6_wave_mode_example_witness :
    exampleHeader.WellFormed ∧ exampleHeader.LOOP_ERROR_TRESHOLD = 500 ∧
    bitSet (ADC_UpdateLoopMonitor exampleHeader 0
      { outputState := 1, mode := DAC_MODE_WAVEFORM, settingConst := 4000,
        waveMin := 4000, waveMax := 20000 }
      { exampleState 0 0 with loop_current := 3500 }).loop_status
        exampleHeader.LOOP_ERROR = false :=
  ⟨by decide, by decide,
    (C6_wave_mode_example exampleHeader 0
      { outputState := 1, mode := DAC_MODE_WAVEFORM, settingConst := 4000,
        waveMin := 4000, waveMax := 20000 }
      (exampleState 0 0) (by decide) (by decide) (by decide) (by decide) (by decide)
      (by decide) (by decide)).1⟩


theorem C3_enabled_break_iff_threshold_witness :
    (bitSet (ADC_UpdateLoopMonitor exampleHeader 0
        { outputState := 1, mode := DAC_MODE_CONST, settingConst := 4000,
          waveMin := 4000, waveMax := 20000 }
        (exampleState 100 17)).loop_status exampleHeader.LOOP_BREAK = true ↔
      (exampleState 100 17).loop_current ≤ exampleHeader.LOOP_BREAK_TRESHOLD) ∧
    (ADC_UpdateLoopMonitor exampleHeader 0
        { outputState := 1, mode := DAC_MODE_CONST, settingConst := 4000,
          waveMin := 4000, waveMax := 20000 }
        (exampleState 100 17)).blink_counter = 0 :=
  C3_enabled_break_iff_threshold exampleHeader 0
    { outputState := 1, mode := DAC_MODE_CONST, settingConst := 4000,
      waveMin := 4000, waveMax := 20000 }
    (exampleState 100 17) (by decide) (by decide) (by decide)

theorem C4_disabled_blink_witness :
    (exampleState 7000 24).blink_counter < 25 ∧
    (ADC_UpdateLoopMonitor exampleHeader 0
        { outputState := 0, mode := DAC_MODE_CONST, settingConst := 4000,
          waveMin := 4000, waveMax := 20000 }
        (exampleState 7000 24)).blink_counter = ((exampleState 7000 24).blink_counter + 1) % 25 :=
  ⟨by decide,
    (C4_disabled_blink exampleHeader 0
      { outputState := 0, mode := DAC_MODE_CONST, settingConst := 4000,
        waveMin := 4000, waveMax := 20000 }
      (exampleState 7000 24) (by decide) (by decide) (by decide) (by decide)).1⟩

theorem C7_monitor_idempotent_witness :
    (ADC_UpdateLoopMonitor exampleHeader 0
        { outputState := 1, mode := DAC_MODE_WAVEFORM, settingConst := 4000,
          waveMin := 4000, waveMax := 20000 }
        (ADC_UpdateLoopMonitor exampleHeader 0
          { outputState := 1, mode := DAC_MODE_WAVEFORM, settingConst := 4000,
            waveMin := 4000, waveMax := 20000 }
          (exampleState 50 9))).loop_status =
      (ADC_UpdateLoopMonitor exampleHeader 0
        { outputState := 1, mode := DAC_MODE_WAVEFORM, settingConst := 4000,
          waveMin := 4000, waveMax := 20000 }
        (exampleState 50 9)).loop_status :=
  (C7_monitor_idempotent exampleHeader 0
    { outputState := 1, mode := DAC_MODE_WAVEFORM, settingConst := 4000,
      waveMin := 4000, waveMax := 20000 }
    (exampleState 50 9) (by decide)).1

/-! ## Claims on the simulator's output controller -/

/-- C8: for a profile count between 1 and 256 and every index handed to `DAC_SetProfile`,
the active profile afterwards is the index itself when `0 <= index < PROFILE_COUNT`,
profile 0 when `index >= PROFILE_COUNT`, and the last profile `PROFILE_COUNT - 1` when
`index < 0`; it is always below `PROFILE_COUNT`, hence a valid index into a setpoint
array of `PROFILE_COUNT` entries. With 2 profiles, index 2 selects profile 0 and
index -1 selects profile 1. -/
theorem C8_profile_wraparound (PROFILE_COUNT : Nat) (num : Int) (d : dac_state_t)
    (hpos : 0 < PROFILE_COUNT) (hle : PROFILE_COUNT ≤ 256) :
    (0 ≤ num → num < (PROFILE_COUNT : Int) →
      (DAC_GetActiveProfile (DAC_SetProfile PROFILE_COUNT num d) : Int) = num) ∧
    (num ≥ (PROFILE_COUNT : Int) →
      DAC_GetActiveProfile (DAC_SetProfile PROFILE_COUNT num d) = 0) ∧
    (num < 0 →
      DAC_GetActiveProfile (DAC_SetProfile PROFILE_COUNT num d) = PROFILE_COUNT - 1) ∧
    DAC_GetActiveProfile (DAC_SetProfile PROFILE_COUNT num d) < PROFILE_COUNT ∧
    (d.setting.length = PROFILE_COUNT →
      (DAC_SetProfile PROFILE_COUNT num d).profile <
        (DAC_SetProfile PROFILE_COUNT num d).setting.length) ∧
    DAC_GetActiveProfile (DAC_SetProfile DAC_PROFILE_COUNT 2 d) = 0 ∧
    DAC_GetActiveProfile (DAC_SetProfile DAC_PROFILE_COUNT (-1) d) = 1 := by
  have h1 : 0 ≤ num → num < (PROFILE_COUNT : Int) →
      (DAC_GetActiveProfile (DAC_SetProfile PROFILE_COUNT num d) : Int) = num := by
    intro h0 hlt
    simp only [DAC_GetActiveProfile, DAC_SetProfile, toU8]
    rw [if_neg (by omega), if_neg (by omega)]
    omega
  have h2 : num ≥ (PROFILE_COUNT : Int) →
      DAC_GetActiveProfile (DAC_SetProfile PROFILE_COUNT num d) = 0 := by
    intro hge
    simp only [DAC_GetActiveProfile, DAC_SetProfile, toU8]
    rw [if_pos hge]
    rfl
  have h3 : num < 0 →
      DAC_GetActiveProfile (DAC_SetProfile PROFILE_COUNT num d) = PROFILE_COUNT - 1 := by
    intro hneg
    simp only [DAC_GetActiveProfile, DAC_SetProfile, toU8, toI16]
    rw [if_neg (by omega), if_pos hneg]
    omega
  have h4 : DAC_GetActiveProfile (DAC_SetProfile PROFILE_COUNT num d) < PROFILE_COUNT := by
    rcases lt_or_le num 0 with hneg | h0
    · rw [h3 hneg]; omega
    · rcases lt_or_le num (PROFILE_COUNT : Int) with hlt | hge
      · have := h1 h0 hlt
        omega
      · rw [h2 hge]; exact hpos
  refine ⟨h1, h2, h3, h4, ?_, ?_, ?_⟩
  · intro hlen
    have : (DAC_SetProfile PROFILE_COUNT num d).setting.length = PROFILE_COUNT := hlen
    rw [this]
    exact h4
  · simp [DAC_GetActiveProfile, DAC_SetProfile, DAC_PROFILE_COUNT, toU8]
  · simp [DAC_GetActiveProfile, DAC_SetProfile, DAC_PROFILE_COUNT, toU8, toI16]

theorem C8_profile_wraparound_witness :
    (0 : Nat) < DAC_PROFILE_COUNT ∧ DAC_PROFILE_COUNT ≤ 256 ∧
    DAC_GetActiveProfile (DAC_SetProfile DAC_PROFILE_COUNT 7
      (guiInitialize DAC_PROFILE_COUNT)) = 0 :=
  ⟨by decide, by decide,
    (C8_profile_wraparound DAC_PROFILE_COUNT 7 (guiInitialize DAC_PROFILE_COUNT)
      (by decide) (by decide)).2.1 (by decide)⟩


/-- C9 (as stated) fails: `DAC_SetSettingConst` stores its argument unclamped. After
`guiInitialize` with 2 profiles, setting 30000 reads back as 30000, not 24000, and
setting 50 reads back as 50, not 100. -/
theorem C9_counterexample_no_clamping :
    DAC_GetSettingConst (DAC_SetSettingConst 30000 (guiInitialize DAC_PROFILE_COUNT)) = 30000 ∧
    clampSetting 30000 = 24000 ∧
    DAC_GetSettingConst (DAC_SetSettingConst 50 (guiInitialize DAC_PROFILE_COUNT)) = 50 ∧
    clampSetting 50 = 100 := by
  decide

/-- C9 (amended): for every `uint32_t` value handed to `DAC_SetSettingConst` while the
active profile is a valid index, the setpoint stored for the active profile and read
back by `DAC_GetSettingConst` is the value itself; it is the value clamped to
`[DAC_MIN_SETTING, DAC_MAX_SETTING] = [100, 24000]` when the value lies in that range.
The setpoints of the other profiles, the number of profiles and the active profile
are unchanged. -/
theorem C9_setpoint_stored_as_given (value : Nat) (d : dac_state_t)
    (hv : value < 4294967296) (hp : d.profile < d.setting.length) :
    DAC_GetSettingConst (DAC_SetSettingConst value d) = value ∧
    (DAC_MIN_SETTING ≤ value → value ≤ DAC_MAX_SETTING →
      DAC_GetSettingConst (DAC_SetSettingConst value d) = clampSetting value) ∧
    (∀ i : Nat, i ≠ d.profile →
      (DAC_SetSettingConst value d).setting.getD i 0 = d.setting.getD i 0) ∧
    (DAC_SetSettingConst value d).setting.length = d.setting.length ∧
    (DAC_SetSettingConst value d).profile = d.profile := by
  have hget : DAC_GetSettingConst (DAC_SetSettingConst value d) = value := by
    simp only [DAC_GetSettingConst, DAC_SetSettingConst, Nat.mod_eq_of_lt hv]
    rw [List.getD_eq_getElem _ _ (by rw [List.length_set]; exact hp)]
    simp
  refine ⟨hget, ?_, ?_, ?_, rfl⟩
  · intro hlo hhi
    rw [hget]
    unfold clampSetting
    rw [if_neg (by omega), if_neg (by omega)]
  · intro i hi
    simp only [DAC_SetSettingConst, List.getD_eq_getElem?_getD]
    rw [List.getElem?_set_ne (Ne.symm hi)]
  · simp [DAC_SetSettingConst]

theorem C9_setpoint_stored_as_given_witness :
    (12000 : Nat) < 4294967296 ∧
    (guiInitialize DAC_PROFILE_COUNT).profile < (guiInitialize DAC_PROFILE_COUNT).setting.length ∧
    DAC_GetSettingConst (DAC_SetSettingConst 12000 (guiInitialize DAC_PROFILE_COUNT)) = 12000 :=
  ⟨by decide, by decide,
    (C9_setpoint_stored_as_given 12000 (guiInitialize DAC_PROFILE_COUNT)
      (by decide) (by decide)).1⟩

/-! ## Claims on calibration-point capture -/

theorem oversample_four (r : Nat → Nat) :
    oversample 4 r = (r 0 &&& 0xFFF) + (r 1 &&& 0xFFF) + (r 2 &&& 0xFFF) + (r 3 &&& 0xFFF) := by
  have hb : ∀ x : Nat, x &&& 0xFFF < 4096 := fun x => Nat.and_lt_two_pow x (n := 12) (by norm_num)
  have h0 := hb (r 0)
  have h1 := hb (r 1)
  have h2 := hb (r 2)
  have h3 := hb (r 3)
  simp only [oversample, List.range_succ, List.range_zero, List.nil_append, List.foldl_cons,
    List.foldl_append, List.foldl_nil, Nat.zero_add]
  omega

/-- C10: `ADC_SaveLoopCurrentCalibrationPoint` sets exactly one point of the current
channel's calibration (point1 when `pointNum = 1`, point2 otherwise) to the supplied
reference value paired with `adc_current_code`, the raw code stored by the most recent
`ADC_UpdateLoopCurrent` (the sum of its four masked samples), and leaves the other
point, the scale, the gain and offset coefficients and the rest of the state
unchanged; `ADC_SaveLoopVoltageCalibrationPoint` does the same on the voltage
channel with `adc_voltage_code`. -/
theorem C10_capture_is_pure_record (pointNum measuredValue : Nat) (s : AdcState)
    (GetValueForCode : calibration_t → Nat → Int) (ADC1_GetResult : Nat → Nat) :
    ((pointNum = 1 →
        (ADC_SaveLoopCurrentCalibrationPoint pointNum measuredValue s).adc_current_calibration.point1
            = { value := measuredValue, code := s.adc_current_code } ∧
        (ADC_SaveLoopCurrentCalibrationPoint pointNum measuredValue s).adc_current_calibration.point2
            = s.adc_current_calibration.point2) ∧
      (pointNum ≠ 1 →
        (ADC_SaveLoopCurrentCalibrationPoint pointNum measuredValue s).adc_current_calibration.point2
            = { value := measuredValue, code := s.adc_current_code } ∧
        (ADC_SaveLoopCurrentCalibrationPoint pointNum measuredValue s).adc_current_calibration.point1
            = s.adc_current_calibration.point1) ∧
      (ADC_SaveLoopCurrentCalibrationPoint pointNum measuredValue s).adc_current_calibration.scale
          = s.adc_current_calibration.scale ∧
      (ADC_SaveLoopCurrentCalibrationPoint pointNum measuredValue s).adc_current_calibration.gain
          = s.adc_current_calibration.gain ∧
      (ADC_SaveLoopCurrentCalibrationPoint pointNum measuredValue s).adc_current_calibration.offset
          = s.adc_current_calibration.offset ∧
      ADC_SaveLoopCurrentCalibrationPoint pointNum measuredValue s =
        { s with adc_current_calibration :=
            (ADC_SaveLoopCurrentCalibrationPoint pointNum measuredValue s).adc_current_calibration } ∧
      (ADC_UpdateLoopCurrent GetValueForCode ADC1_GetResult s).adc_current_code =
        (ADC1_GetResult 0 &&& 0xFFF) + (ADC1_GetResult 1 &&& 0xFFF) +
          (ADC1_GetResult 2 &&& 0xFFF) + (ADC1_GetResult 3 &&& 0xFFF)) ∧
    ((pointNum = 1 →
        (ADC_SaveLoopVoltageCalibrationPoint pointNum measuredValue s).adc_voltage_calibration.point1
            = { value := measuredValue, code := s.adc_voltage_code } ∧
        (ADC_SaveLoopVoltageCalibrationPoint pointNum measuredValue s).adc_voltage_calibration.point2
            = s.adc_voltage_calibration.point2) ∧
      (pointNum ≠ 1 →
        (ADC_SaveLoopVoltageCalibrationPoint pointNum measuredValue s).adc_voltage_calibration.point2
            = { value := measuredValue, code := s.adc_voltage_code } ∧
        (ADC_SaveLoopVoltageCalibrationPoint pointNum measuredValue s).adc_voltage_calibration.point1
            = s.adc_voltage_calibration.point1) ∧
      (ADC_SaveLoopVoltageCalibrationPoint pointNum measuredValue s).adc_voltage_calibration.scale
          = s.adc_voltage_calibration.scale ∧
      (ADC_SaveLoopVoltageCalibrationPoint pointNum measuredValue s).adc_voltage_calibration.gain
          = s.adc_voltage_calibration.gain ∧
      (ADC_SaveLoopVoltageCalibrationPoint pointNum measuredValue s).adc_voltage_calibration.offset
          = s.adc_voltage_calibration.offset ∧
      ADC_SaveLoopVoltageCalibrationPoint pointNum measuredValue s =
        { s with adc_voltage_calibration :=
            (ADC_SaveLoopVoltageCalibrationPoint pointNum measuredValue s).adc_voltage_calibration } ∧
      (ADC_UpdateLoopVoltage GetValueForCode ADC1_GetResult s).adc_voltage_code =
        (ADC1_GetResult 0 &&& 0xFFF) + (ADC1_GetResult 1 &&& 0xFFF) +
          (ADC1_GetResult 2 &&& 0xFFF) + (ADC1_GetResult 3 &&& 0xFFF)) := by
  constructor
  · refine ⟨?_, ?_, ?_, ?_, ?_, ?_, ?_⟩
    · intro h
      simp [ADC_SaveLoopCurrentCalibrationPoint, h]
    · intro h
      simp [ADC_SaveLoopCurrentCalibrationPoint, h]
    · unfold ADC_SaveLoopCurrentCalibrationPoint
      split_ifs <;> rfl
    · unfold ADC_SaveLoopCurrentCalibrationPoint
      split_ifs <;> rfl
    · unfold ADC_SaveLoopCurrentCalibrationPoint
      split_ifs <;> rfl
    · unfold ADC_SaveLoopCurrentCalibrationPoint
      split_ifs <;> rfl
    · simp only [ADC_UpdateLoopCurrent, CURRENT_ADC_OVERSAMPLE]
      exact oversample_four ADC1_GetResult
  · refine ⟨?_, ?_, ?_, ?_, ?_, ?_, ?_⟩
    · intro h
      simp [ADC_SaveLoopVoltageCalibrationPoint, h]
    · intro h
      simp [ADC_SaveLoopVoltageCalibrationPoint, h]
    · unfold ADC_SaveLoopVoltageCalibrationPoint
      split_ifs <;> rfl
    · unfold ADC_SaveLoopVoltageCalibrationPoint
      split_ifs <;> rfl
    · unfold ADC_SaveLoopVoltageCalibrationPoint
      split_ifs <;> rfl
    · unfold ADC_SaveLoopVoltageCalibrationPoint
      split_ifs <;> rfl
    · simp only [ADC_UpdateLoopVoltage, VOLTAGE_ADC_OVERSAMPLE]
      exact oversample_four ADC1_GetResult

theorem C10_capture_is_pure_record_witness :
    (ADC_SaveLoopCurrentCalibrationPoint 1 4000
        (exampleState 0 0)).adc_current_calibration.point1
      = { value := 4000, code := (exampleState 0 0).adc_current_code } ∧
    (ADC_SaveLoopCurrentCalibrationPoint 1 4000
        (exampleState 0 0)).adc_current_calibration.point2
      = (exampleState 0 0).adc_current_calibration.point2 :=
  (C10_capture_is_pure_record 1 4000 (exampleState 0 0) (fun _ _ => 0) (fun _ => 0)).1.1 rfl

end Calibrator
